import Mathlib

/-
Verification of the reservation and stock-mutation engine of the
distributed inventory service (src/src/services/inventory_service.py and
its collaborators).

Embedding conventions:
  - One (product_id, store_id) key is modelled.  Every operation in
    InventoryService addresses a single such key, and rows of other keys
    are never touched, so the projection to one key is faithful.  The
    inventory row for the key is taken to exist (the INVENTORY_NOT_FOUND
    branches concern absent rows, which the claims do not exercise).
  - Timestamps (datetime.utcnow()) are abstract Nat instants supplied as
    parameters; expires_at = now + ttl_minutes in the same abstract unit.
  - SQL integer columns are Int; SQLAlchemy applies no CHECK constraints
    on the quantity columns (src/src/models/database.py), so arithmetic
    is unbounded.
  - Each UPDATE statement of the source is transcribed as a row-level
    function.  A statement whose WHERE clause carries the predicate
    InventoryDB.version == snapshot.version becomes an Option-valued
    function that returns none when the guard fails (rowcount == 0);
    a statement without that predicate becomes a total function.
  - Each service method becomes a function
      EngineState -> parameters -> EngineState x Except EngineError A.
    A returned error means the durable state is unchanged: reserve_stock,
    cancel_reservation and update_stock roll the session back in their
    except blocks; confirm_reservation and consume_reservation let the
    exception propagate, no commit runs, and the request-scoped session
    (src/src/utils/database.py get_db) is closed, discarding the
    uncommitted statements.
  - External effects (distributed lock acquisition, event-bus publish)
    are injected as Boolean parameters: lockOk is the result of
    lock_manager.acquire_lock, publishOk tells whether the event-bus
    publish inside EventService.publish_event succeeds.  Note that
    EventService.publish_event (src/src/services/event_service.py) logs
    a failed publish and then re-raises it.
-/

namespace Proyecto1

/-- Reservation lifecycle states, from ReservationStatus in
src/src/models/inventory.py. -/
inductive ReservationStatus where
  | pending
  | confirmed
  | consumed
  | cancelled
  | expired
deriving DecidableEq, Repr

/-- The inventory ledger row for the modelled (product, store) key:
columns available_quantity, reserved_quantity, total_quantity, version,
last_updated of InventoryDB (src/src/models/database.py). -/
structure InventoryRow where
  available_quantity : Int
  reserved_quantity : Int
  total_quantity : Int
  version : Int
  last_updated : Nat
deriving DecidableEq, Repr

/-- A reservation row for the modelled (product, store) key: columns
quantity, status, expires_at, confirmed_at, cancelled_at of
ReservationDB.  Identifier columns are carried by the key of the
association list in EngineState. -/
structure ReservationRow where
  quantity : Int
  status : ReservationStatus
  expires_at : Nat
  confirmed_at : Option Nat := none
  cancelled_at : Option Nat := none
deriving DecidableEq, Repr

/-- The durable state touched by the engine for one (product, store)
key: the inventory row and the reservation table (primary key to row). -/
structure EngineState where
  inv : InventoryRow
  reservations : List (Nat × ReservationRow)
deriving DecidableEq, Repr

/-- Errors raised by the engine.  Typed exceptions correspond to
src/src/exceptions.py; genericError stands for a bare Python
Exception(msg); attributeError is Python's AttributeError for a call to
a method that does not exist; publishFailed is the exception re-raised
by EventService.publish_event when the broker publish fails. -/
inductive EngineError where
  | distributedLockFailed
  | inventoryNotFound
  | insufficientStock
  | optimisticLockConflict
  | reservationNotFound
  | invalidReservationStatus
  | reservationExpired
  | publishFailed
  | genericError (msg : String)
  | attributeError (missing : String)
deriving DecidableEq, Repr

/-- Response of a successful Reserve (ReservationResponse in
src/src/models/inventory.py, message field omitted). -/
structure ReservationResponse where
  reservation_id : Nat
  status : ReservationStatus
  expires_at : Nat
deriving DecidableEq, Repr

/-- SELECT of a reservation by primary key (scalar_one_or_none). -/
def findRes (rs : List (Nat × ReservationRow)) (rid : Nat) : Option ReservationRow :=
  (rs.find? (fun p => p.1 = rid)).map Prod.snd

/-- UPDATE of the reservation row with the given primary key. -/
def setRes (rs : List (Nat × ReservationRow)) (rid : Nat)
    (f : ReservationRow → ReservationRow) : List (Nat × ReservationRow) :=
  rs.map (fun p => if p.1 = rid then (p.1, f p.2) else p)

/-- The inventory UPDATE issued by reserve_stock (lines 127-142): WHERE
carries version == snapshot version; SET subtracts the quantity from
available_quantity, adds it to reserved_quantity, increments version,
sets last_updated.  Returns none when the version guard fails
(rowcount == 0). -/
def reserveUpdate (row : InventoryRow) (expectedVersion q : Int) (t : Nat) :
    Option InventoryRow :=
  if row.version = expectedVersion then
    some { row with
      available_quantity := row.available_quantity - q
      reserved_quantity := row.reserved_quantity + q
      version := row.version + 1
      last_updated := t }
  else none

/-- The inventory UPDATE issued by consume_reservation (lines 262-277):
version-guarded; subtracts the quantity from reserved_quantity and
total_quantity, increments version, sets last_updated. -/
def consumeUpdate (row : InventoryRow) (expectedVersion q : Int) (t : Nat) :
    Option InventoryRow :=
  if row.version = expectedVersion then
    some { row with
      reserved_quantity := row.reserved_quantity - q
      total_quantity := row.total_quantity - q
      version := row.version + 1
      last_updated := t }
  else none

/-- The inventory UPDATE issued by cancel_reservation (lines 327-341):
its WHERE clause matches product_id and store_id only, with no version
predicate, so it applies to every row of the key; it adds the quantity
to available_quantity, subtracts it from reserved_quantity, increments
version, sets last_updated. -/
def cancelUpdate (row : InventoryRow) (q : Int) (t : Nat) : InventoryRow :=
  { row with
    available_quantity := row.available_quantity + q
    reserved_quantity := row.reserved_quantity - q
    version := row.version + 1
    last_updated := t }

/-- The inventory UPDATE issued by _expire_reservation (lines 465-478):
WHERE matches product_id and store_id only; SET adds the quantity to
available_quantity, subtracts it from reserved_quantity and sets
last_updated.  The source statement does not touch the version column. -/
def expireUpdate (row : InventoryRow) (q : Int) (t : Nat) : InventoryRow :=
  { row with
    available_quantity := row.available_quantity + q
    reserved_quantity := row.reserved_quantity - q
    last_updated := t }

/-- The inventory UPDATE issued by update_stock (lines 400-415):
version-guarded; SET writes available_quantity to the absolute value
newAvailable computed before the statement, adds the delta to
total_quantity, increments version, sets last_updated. -/
def updateStockWrite (row : InventoryRow) (expectedVersion newAvailable delta : Int)
    (t : Nat) : Option InventoryRow :=
  if row.version = expectedVersion then
    some { row with
      available_quantity := newAvailable
      total_quantity := row.total_quantity + delta
      version := row.version + 1
      last_updated := t }
  else none

/-- InventoryService.reserve_stock (lines 98-188).  Control flow: lock
acquisition (failure raises DistributedLockFailedError); stock check
against the snapshot; insert of a PENDING reservation (the database
rejects a duplicate primary key, surfaced as an IntegrityError);
version-guarded inventory update with rowcount check; publish of
reservation_created through EventService.publish_event, which re-raises
a broker failure; commit.  Every raised error is caught by the except
block, which rolls the session back and re-raises, so an error result
leaves the state unchanged. -/
def reserve_stock (s : EngineState) (quantity : Int) (ttl_minutes now newId : Nat)
    (lockOk publishOk : Bool) : EngineState × Except EngineError ReservationResponse :=
  if ¬ lockOk then (s, .error .distributedLockFailed)
  else if s.inv.available_quantity < quantity then (s, .error .insufficientStock)
  else if (findRes s.reservations newId).isSome then
    (s, .error (.genericError "IntegrityError: duplicate primary key"))
  else
    match reserveUpdate s.inv s.inv.version quantity now with
    | none => (s, .error .optimisticLockConflict)
    | some inv1 =>
      if ¬ publishOk then (s, .error .publishFailed)
      else
        (⟨inv1, (newId, { quantity := quantity, status := .pending,
                          expires_at := now + ttl_minutes }) :: s.reservations⟩,
         .ok { reservation_id := newId, status := .pending,
               expires_at := now + ttl_minutes })

/-- InventoryService._expire_reservation (lines 456-492) as written in
the source: re-read the reservation, return silently unless it is still
PENDING, issue the inventory update and the status update in the
session, then call self._publish_event, a method that does not exist on
InventoryService, which raises AttributeError.  The method never
commits; its caller propagates the AttributeError and never commits
either, so the session statements are discarded when the request-scoped
session closes, and an error result leaves the durable state
unchanged. -/
def expire_reservation (s : EngineState) (rid : Nat) (now : Nat) :
    EngineState × Except EngineError Unit :=
  match findRes s.reservations rid with
  | none => (s, .ok ())
  | some r =>
    if r.status ≠ .pending then (s, .ok ())
    else (s, .error (.attributeError "_publish_event"))

/-- The state transformation the SQL statements of _expire_reservation
(lines 456-484) describe, as it would stand if it were committed: no-op
unless the reservation is still PENDING, otherwise apply expireUpdate
to the inventory and set the reservation status to EXPIRED.  In the
source as written this transition is never committed, because
_expire_reservation raises AttributeError before any commit. -/
def expireTransition (s : EngineState) (rid : Nat) (now : Nat) : EngineState :=
  match findRes s.reservations rid with
  | none => s
  | some r =>
    if r.status ≠ .pending then s
    else ⟨expireUpdate s.inv r.quantity now,
          setRes s.reservations rid (fun x => { x with status := .expired })⟩

/-- InventoryService.confirm_reservation (lines 190-235).  Load the
reservation (absent raises ReservationNotFoundError); a status other
than PENDING raises InvalidReservationStatusError; an expires_at before
now enters _expire_reservation, which raises AttributeError at the
self._publish_event call before the subsequent ReservationExpiredError
line can run; otherwise the status is set to CONFIRMED with
confirmed_at, reservation_confirmed is published (a broker failure
re-raises) and the session commits.  The method has no except block; on
any raise nothing commits and the closed session discards the
statements, so an error result leaves the state unchanged. -/
def confirm_reservation (s : EngineState) (rid : Nat) (now : Nat) (publishOk : Bool) :
    EngineState × Except EngineError Bool :=
  match findRes s.reservations rid with
  | none => (s, .error .reservationNotFound)
  | some r =>
    if r.status ≠ .pending then (s, .error .invalidReservationStatus)
    else if r.expires_at < now then
      match expire_reservation s rid now with
      | (s1, .error e) => (s1, .error e)
      | (s1, .ok _) => (s1, .error .reservationExpired)
    else if ¬ publishOk then (s, .error .publishFailed)
    else (⟨s.inv, setRes s.reservations rid
            (fun x => { x with status := .confirmed, confirmed_at := some now })⟩,
          .ok true)

/-- InventoryService.consume_reservation (lines 237-305).  Load the
reservation (absent raises a bare Exception); a status other than
CONFIRMED raises a bare Exception; then the inventory is loaded and the
version-guarded consumeUpdate issued, a zero rowcount raising a bare
Exception; the reservation status is set to CONSUMED,
reservation_consumed is published (a broker failure re-raises) and the
session commits.  No lock_manager call appears anywhere in the method.
It has no except block; on any raise nothing commits and the closed
session discards the statements, so an error result leaves the state
unchanged. -/
def consume_reservation (s : EngineState) (rid : Nat) (now : Nat) (publishOk : Bool) :
    EngineState × Except EngineError Bool :=
  match findRes s.reservations rid with
  | none => (s, .error (.genericError "Reservation not found"))
  | some r =>
    if r.status ≠ .confirmed then
      (s, .error (.genericError "Reservation must be confirmed before consumption"))
    else
      match consumeUpdate s.inv s.inv.version r.quantity now with
      | none => (s, .error (.genericError
          "Optimistic lock conflict - inventory was modified by another operation"))
      | some inv1 =>
        if ¬ publishOk then (s, .error .publishFailed)
        else (⟨inv1, setRes s.reservations rid (fun x => { x with status := .consumed })⟩,
              .ok true)

/-- InventoryService.cancel_reservation (lines 307-382).  Load the
reservation (absent raises a bare Exception); a status outside PENDING
and CONFIRMED raises a bare Exception; the (product, store) lock is
acquired (failure raises a bare Exception); the status is re-checked
inside the lock against the same in-memory object, which always passes
and is therefore folded into the first check here; the unconditional
cancelUpdate is issued once, with no rowcount check and no retry; the
reservation status is set to CANCELLED with cancelled_at;
reservation_cancelled is published (a broker failure re-raises); the
session commits.  Raised errors are caught by the except block, which
rolls back and re-raises, so an error result leaves the state
unchanged. -/
def cancel_reservation (s : EngineState) (rid : Nat) (now : Nat)
    (lockOk publishOk : Bool) : EngineState × Except EngineError Bool :=
  match findRes s.reservations rid with
  | none => (s, .error (.genericError "Reservation not found"))
  | some r =>
    if ¬ (r.status = .pending ∨ r.status = .confirmed) then
      (s, .error (.genericError "Reservation cannot be cancelled"))
    else if ¬ lockOk then
      (s, .error (.genericError "Could not acquire inventory lock"))
    else if ¬ publishOk then (s, .error .publishFailed)
    else (⟨cancelUpdate s.inv r.quantity now,
           setRes s.reservations rid
             (fun x => { x with status := .cancelled, cancelled_at := some now })⟩,
          .ok true)

/-- InventoryService.update_stock (lines 384-454).  Acquire the lock
(failure raises a bare Exception); read the inventory snapshot; compute
new_available = available + quantity_change and raise a bare Exception
when it is negative; issue the version-guarded updateStockWrite, a zero
rowcount raising OptimisticLockConflictError; publish stock_updated (a
broker failure re-raises); commit.  The except block rolls back and
re-raises, so an error result leaves the state unchanged. -/
def update_stock (s : EngineState) (quantity_change : Int) (now : Nat)
    (lockOk publishOk : Bool) : EngineState × Except EngineError Bool :=
  if ¬ lockOk then (s, .error (.genericError "Could not acquire inventory lock"))
  else if s.inv.available_quantity + quantity_change < 0 then
    (s, .error (.genericError "Stock cannot go below zero"))
  else
    match updateStockWrite s.inv s.inv.version
        (s.inv.available_quantity + quantity_change) quantity_change now with
    | none => (s, .error .optimisticLockConflict)
    | some inv1 =>
      if ¬ publishOk then (s, .error .publishFailed)
      else ({ s with inv := inv1 }, .ok true)

/-- Modelled from the spec: src/constants.py is imported by
src/src/exceptions.py and src/src/utils/error_utils.py but is not part
of the repository snapshot; the RESP_ numbers follow the HTTP column of
the error table in section 7 of the specification. -/
def RESP_BAD_REQUEST : Nat := 400

/-- Modelled from the spec: see RESP_BAD_REQUEST. -/
def RESP_NOT_FOUND : Nat := 404

/-- Modelled from the spec: see RESP_BAD_REQUEST. -/
def RESP_CONFLICT : Nat := 409

/-- Modelled from the spec: see RESP_BAD_REQUEST. -/
def RESP_INTERNAL_SERVER_ERROR : Nat := 500

/-- Modelled from the spec: see RESP_BAD_REQUEST. -/
def RESP_SERVICE_UNAVAILABLE : Nat := 503

/-- The status_code of the HTTPException that handle_service_exception
(src/src/utils/error_utils.py) builds for each engine error, when a
route's except block reaches that translator: a typed
InventoryServiceBaseException carries its own status_code
(InsufficientStockError and InvalidReservationStatusError subclass
BusinessError, ReservationExpiredError and OptimisticLockConflictError
subclass ConflictError, the not-found errors subclass NotFoundError,
DistributedLockFailedError subclasses ExternalServiceError), and every
other exception, bare Exception and AttributeError included, is mapped
to RESP_INTERNAL_SERVER_ERROR.  This is NOT always the status the wire
sees: the except block of the /inventory/confirm route raises a
NameError of its own before reaching this translator, so errors of
that route surface as 500 regardless of this mapping (see
confirm_route_status). -/
def handle_service_exception : EngineError → Nat
  | .distributedLockFailed => RESP_SERVICE_UNAVAILABLE
  | .inventoryNotFound => RESP_NOT_FOUND
  | .insufficientStock => RESP_BAD_REQUEST
  | .optimisticLockConflict => RESP_CONFLICT
  | .reservationNotFound => RESP_NOT_FOUND
  | .invalidReservationStatus => RESP_BAD_REQUEST
  | .reservationExpired => RESP_CONFLICT
  | .publishFailed => RESP_INTERNAL_SERVER_ERROR
  | .genericError _ => RESP_INTERNAL_SERVER_ERROR
  | .attributeError _ => RESP_INTERNAL_SERVER_ERROR

/-- The HTTP status the /inventory/confirm route actually surfaces for
an error raised by the service.  Its except block
(src/src/api/inventory.py lines 85-91) first evaluates
str(reservation_id), but reservation_id is an undefined name in that
scope - the handler's parameter is request and the success path
correctly logs request.reservation_id - so a NameError is raised
inside the except block before handle_service_exception can run, the
NameError escapes the handler, and the framework returns 500 for every
service error on this route, whatever status the original exception
carried. -/
def confirm_route_status : EngineError → Nat :=
  fun _ => RESP_INTERNAL_SERVER_ERROR

/-- External effects a service method performs, in program order, used
to state which methods touch the lock manager and which inventory
writes carry a version predicate. -/
inductive EngineAction where
  | acquireLock
  | releaseLock
  | readReservation
  | readInventory
  | insertReservation
  | condUpdateInventory
  | plainUpdateInventory
  | updateReservationStatus
  | publish (event : String)
  | commitTx
deriving DecidableEq, Repr

/-- The effect sequence of the success path of reserve_stock
(lines 98-188), transcribed statement by statement. -/
def reserveActions : List EngineAction :=
  [.acquireLock, .readInventory, .insertReservation, .condUpdateInventory,
   .publish "reservation_created", .commitTx, .releaseLock]

/-- The effect sequence of the success path of confirm_reservation
(lines 190-235). -/
def confirmActions : List EngineAction :=
  [.readReservation, .updateReservationStatus,
   .publish "reservation_confirmed", .commitTx]

/-- The effect sequence of the success path of consume_reservation
(lines 237-305): it reads the reservation and the inventory, issues the
version-guarded inventory update and the status update, publishes and
commits; it never calls the lock manager. -/
def consumeActions : List EngineAction :=
  [.readReservation, .readInventory, .condUpdateInventory,
   .updateReservationStatus, .publish "reservation_consumed", .commitTx]

/-- The effect sequence of the success path of cancel_reservation
(lines 307-382): the inventory write is the single unconditional
UPDATE of lines 327-341, whose WHERE clause has no version predicate;
no retry loop surrounds it. -/
def cancelActions : List EngineAction :=
  [.readReservation, .acquireLock, .plainUpdateInventory,
   .updateReservationStatus, .publish "reservation_cancelled", .commitTx, .releaseLock]

/-- The effect sequence of the success path of update_stock
(lines 384-454). -/
def updateStockActions : List EngineAction :=
  [.acquireLock, .readInventory, .condUpdateInventory,
   .publish "stock_updated", .commitTx, .releaseLock]

/-- A reservation holds stock while it is PENDING or CONFIRMED
(glossary: reserved units are those held by PENDING or CONFIRMED
reservations). -/
def activeStatus : ReservationStatus → Bool
  | .pending => true
  | .confirmed => true
  | .consumed => false
  | .cancelled => false
  | .expired => false

/-- The contribution of one reservation row to the reserved counter. -/
def weight (r : ReservationRow) : Int :=
  if activeStatus r.status then r.quantity else 0

/-- Sum of the quantities of the PENDING and CONFIRMED reservations. -/
def activeReserved : List (Nat × ReservationRow) → Int
  | [] => 0
  | p :: rest => weight p.2 + activeReserved rest

/-- Primary keys of the reservation table. -/
def resKeys (rs : List (Nat × ReservationRow)) : List Nat := rs.map Prod.fst

/-- The quiescent-state invariant of the ledger: the counter equation
total = available + reserved with all three counters non-negative, the
reserved counter equal to the sum of the active reservation quantities,
every reservation quantity positive (ReservationRequest validates
quantity > 0), and primary keys distinct (ReservationDB.id is the
primary key). -/
def StateInv (s : EngineState) : Prop :=
  s.inv.total_quantity = s.inv.available_quantity + s.inv.reserved_quantity ∧
  0 ≤ s.inv.available_quantity ∧
  0 ≤ s.inv.reserved_quantity ∧
  0 ≤ s.inv.total_quantity ∧
  s.inv.reserved_quantity = activeReserved s.reservations ∧
  (∀ p ∈ s.reservations, 0 < p.2.quantity) ∧
  (resKeys s.reservations).Nodup

instance (s : EngineState) : Decidable (StateInv s) := by
  unfold StateInv; infer_instance

lemma findRes_cons (p : Nat × ReservationRow) (rest : List (Nat × ReservationRow))
    (rid : Nat) :
    findRes (p :: rest) rid = if p.1 = rid then some p.2 else findRes rest rid := by
  by_cases h : p.1 = rid
  · simp [findRes, List.find?_cons_of_pos, h]
  · simp [findRes, List.find?_cons_of_neg, h]

lemma setRes_cons (p : Nat × ReservationRow) (rest : List (Nat × ReservationRow))
    (rid : Nat) (f : ReservationRow → ReservationRow) :
    setRes (p :: rest) rid f =
      (if p.1 = rid then (p.1, f p.2) else p) :: setRes rest rid f := rfl

lemma activeReserved_cons (p : Nat × ReservationRow)
    (rest : List (Nat × ReservationRow)) :
    activeReserved (p :: rest) = weight p.2 + activeReserved rest := rfl

lemma findRes_eq_none_iff {rs : List (Nat × ReservationRow)} {rid : Nat} :
    findRes rs rid = none ↔ rid ∉ resKeys rs := by
  induction rs with
  | nil => simp [findRes, resKeys]
  | cons p rest ih =>
    rw [findRes_cons]
    by_cases h : p.1 = rid
    · simp [resKeys, h]
    · simp only [if_neg h, resKeys, List.map_cons, List.mem_cons, not_or, ih]
      constructor
      · intro hf
        exact ⟨fun hc => h hc.symm, hf⟩
      · intro hf
        exact hf.2

lemma findRes_mem {rs : List (Nat × ReservationRow)} {rid : Nat} {r : ReservationRow}
    (h : findRes rs rid = some r) : (rid, r) ∈ rs := by
  induction rs with
  | nil => simp [findRes] at h
  | cons p rest ih =>
    rw [findRes_cons] at h
    by_cases hp : p.1 = rid
    · rw [if_pos hp] at h
      have h2 : p.2 = r := by injection h
      obtain ⟨a, b⟩ := p
      simp only at hp h2
      subst hp
      subst h2
      exact List.mem_cons_self _ _
    · rw [if_neg hp] at h
      exact List.mem_cons_of_mem _ (ih h)

lemma setRes_of_not_mem {rs : List (Nat × ReservationRow)} {rid : Nat}
    {f : ReservationRow → ReservationRow} (h : rid ∉ resKeys rs) :
    setRes rs rid f = rs := by
  induction rs with
  | nil => rfl
  | cons p rest ih =>
    simp only [resKeys, List.map_cons, List.mem_cons, not_or] at h
    have hp : ¬ p.1 = rid := fun hc => h.1 hc.symm
    rw [setRes_cons, if_neg hp, ih (by simpa [resKeys] using h.2)]

lemma resKeys_setRes (rs : List (Nat × ReservationRow)) (rid : Nat)
    (f : ReservationRow → ReservationRow) :
    resKeys (setRes rs rid f) = resKeys rs := by
  induction rs with
  | nil => rfl
  | cons p rest ih =>
    rw [setRes_cons]
    by_cases h : p.1 = rid
    · simp only [if_pos h, resKeys, List.map_cons]
      rw [show List.map Prod.fst (setRes rest rid f) = resKeys rest from ih]
      rfl
    · simp only [if_neg h, resKeys, List.map_cons]
      rw [show List.map Prod.fst (setRes rest rid f) = resKeys rest from ih]
      rfl

lemma mem_setRes {rs : List (Nat × ReservationRow)} {rid : Nat}
    {f : ReservationRow → ReservationRow} {p : Nat × ReservationRow}
    (h : p ∈ setRes rs rid f) : ∃ q ∈ rs, p.2 = q.2 ∨ p.2 = f q.2 := by
  unfold setRes at h
  rcases List.mem_map.mp h with ⟨a, ha, hap⟩
  refine ⟨a, ha, ?_⟩
  by_cases hc : a.1 = rid
  · simp [hc] at hap; right; rw [← hap]
  · simp [hc] at hap; left; rw [← hap]

lemma weight_nonneg {r : ReservationRow} (h : 0 ≤ r.quantity) : 0 ≤ weight r := by
  unfold weight; split <;> simp [h]

lemma activeReserved_nonneg {rs : List (Nat × ReservationRow)}
    (h : ∀ p ∈ rs, 0 < p.2.quantity) : 0 ≤ activeReserved rs := by
  induction rs with
  | nil => simp [activeReserved]
  | cons p rest ih =>
    have h1 : 0 ≤ weight p.2 := weight_nonneg (le_of_lt (h p (by simp)))
    have h2 : 0 ≤ activeReserved rest := ih (fun q hq => h q (by simp [hq]))
    unfold activeReserved
    omega

lemma activeReserved_setRes {rs : List (Nat × ReservationRow)} {rid : Nat}
    {r : ReservationRow} {f : ReservationRow → ReservationRow}
    (hnd : (resKeys rs).Nodup) (h : findRes rs rid = some r) :
    activeReserved (setRes rs rid f) =
      activeReserved rs - weight r + weight (f r) := by
  induction rs with
  | nil => simp [findRes] at h
  | cons p rest ih =>
    simp only [resKeys, List.map_cons, List.nodup_cons] at hnd
    rw [findRes_cons] at h
    rw [setRes_cons]
    by_cases hp : p.1 = rid
    · rw [if_pos hp] at h
      have hr : p.2 = r := by injection h
      have hnot : rid ∉ resKeys rest := by
        intro hc
        exact hnd.1 (hp ▸ (by simpa [resKeys] using hc))
      rw [if_pos hp, setRes_of_not_mem hnot,
          activeReserved_cons, activeReserved_cons, hr]
      dsimp only
      omega
    · rw [if_neg hp] at h
      rw [if_neg hp, activeReserved_cons, activeReserved_cons,
          ih (by simpa [resKeys] using hnd.2) h]
      omega

@[simp] lemma reserveUpdate_self (row : InventoryRow) (q : Int) (t : Nat) :
    reserveUpdate row row.version q t =
      some { row with
        available_quantity := row.available_quantity - q
        reserved_quantity := row.reserved_quantity + q
        version := row.version + 1
        last_updated := t } := by
  simp [reserveUpdate]

@[simp] lemma consumeUpdate_self (row : InventoryRow) (q : Int) (t : Nat) :
    consumeUpdate row row.version q t =
      some { row with
        reserved_quantity := row.reserved_quantity - q
        total_quantity := row.total_quantity - q
        version := row.version + 1
        last_updated := t } := by
  simp [consumeUpdate]

@[simp] lemma updateStockWrite_self (row : InventoryRow) (na d : Int) (t : Nat) :
    updateStockWrite row row.version na d t =
      some { row with
        available_quantity := na
        total_quantity := row.total_quantity + d
        version := row.version + 1
        last_updated := t } := by
  simp [updateStockWrite]

lemma reserve_stock_ok {s s1 : EngineState} {q : Int} {ttl now newId : Nat}
    {lk pb : Bool} {resp : ReservationResponse}
    (h : reserve_stock s q ttl now newId lk pb = (s1, .ok resp)) :
    q ≤ s.inv.available_quantity ∧ findRes s.reservations newId = none ∧
      s1 = ⟨{ s.inv with
              available_quantity := s.inv.available_quantity - q
              reserved_quantity := s.inv.reserved_quantity + q
              version := s.inv.version + 1
              last_updated := now },
            (newId, ⟨q, .pending, now + ttl, none, none⟩) :: s.reservations⟩ := by
  unfold reserve_stock at h
  rw [reserveUpdate_self] at h
  repeat' split at h
  all_goals simp_all [Option.not_isSome_iff_eq_none]

lemma confirm_reservation_ok {s s1 : EngineState} {rid now : Nat} {pb : Bool}
    {b : Bool} (h : confirm_reservation s rid now pb = (s1, .ok b)) :
    ∃ r, findRes s.reservations rid = some r ∧ r.status = .pending ∧
      ¬ r.expires_at < now ∧
      s1 = ⟨s.inv, setRes s.reservations rid
              (fun x => { x with status := .confirmed, confirmed_at := some now })⟩ := by
  unfold confirm_reservation at h
  split at h
  · simp at h
  rename_i r hr
  refine ⟨r, hr, ?_⟩
  unfold expire_reservation at h
  rw [hr] at h
  repeat' split at h
  all_goals simp_all

lemma consume_reservation_ok {s s1 : EngineState} {rid now : Nat} {pb : Bool}
    {b : Bool} (h : consume_reservation s rid now pb = (s1, .ok b)) :
    ∃ r, findRes s.reservations rid = some r ∧ r.status = .confirmed ∧
      s1 = ⟨{ s.inv with
              reserved_quantity := s.inv.reserved_quantity - r.quantity
              total_quantity := s.inv.total_quantity - r.quantity
              version := s.inv.version + 1
              last_updated := now },
            setRes s.reservations rid (fun x => { x with status := .consumed })⟩ := by
  unfold consume_reservation at h
  split at h
  · simp at h
  rename_i r hr
  refine ⟨r, hr, ?_⟩
  rw [consumeUpdate_self] at h
  repeat' split at h
  all_goals simp_all

lemma cancel_reservation_ok {s s1 : EngineState} {rid now : Nat} {lk pb : Bool}
    {b : Bool} (h : cancel_reservation s rid now lk pb = (s1, .ok b)) :
    ∃ r, findRes s.reservations rid = some r ∧
      (r.status = .pending ∨ r.status = .confirmed) ∧
      s1 = ⟨cancelUpdate s.inv r.quantity now,
            setRes s.reservations rid
              (fun x => { x with status := .cancelled, cancelled_at := some now })⟩ := by
  unfold cancel_reservation at h
  split at h
  · simp at h
  rename_i r hr
  refine ⟨r, hr, ?_⟩
  repeat' split at h
  all_goals try simp_all
  all_goals tauto

lemma update_stock_ok {s s1 : EngineState} {d : Int} {now : Nat} {lk pb : Bool}
    {b : Bool} (h : update_stock s d now lk pb = (s1, .ok b)) :
    0 ≤ s.inv.available_quantity + d ∧
      s1 = { s with inv := { s.inv with
              available_quantity := s.inv.available_quantity + d
              total_quantity := s.inv.total_quantity + d
              version := s.inv.version + 1
              last_updated := now } } := by
  unfold update_stock at h
  rw [updateStockWrite_self] at h
  repeat' split at h
  all_goals simp_all

lemma setRes_quantity_pos {rs : List (Nat × ReservationRow)} {rid : Nat}
    {f : ReservationRow → ReservationRow}
    (hf : ∀ x, (f x).quantity = x.quantity)
    (h : ∀ p ∈ rs, 0 < p.2.quantity) :
    ∀ p ∈ setRes rs rid f, 0 < p.2.quantity := by
  intro p hp
  rcases mem_setRes hp with ⟨a, ha, hc | hc⟩
  · rw [hc]; exact h a ha
  · rw [hc, hf]; exact h a ha

/-- One committed transition of the engine on the modelled key: a
successful Reserve, Confirm, Consume, Cancel or UpdateStock, or the
Expire transition described by the statements of _expire_reservation.
Reserve carries the hypothesis 0 < q because ReservationRequest
(src/src/models/inventory.py) and ReservationRequestSchema validate
quantity > 0 before the engine is reached. -/
inductive Step : EngineState → EngineState → Prop
  | reserve {s s1 : EngineState} (q : Int) (ttl now newId : Nat) (lk pb : Bool)
      (resp : ReservationResponse) (hq : 0 < q)
      (h : reserve_stock s q ttl now newId lk pb = (s1, .ok resp)) : Step s s1
  | confirm {s s1 : EngineState} (rid now : Nat) (pb b : Bool)
      (h : confirm_reservation s rid now pb = (s1, .ok b)) : Step s s1
  | consume {s s1 : EngineState} (rid now : Nat) (pb b : Bool)
      (h : consume_reservation s rid now pb = (s1, .ok b)) : Step s s1
  | cancel {s s1 : EngineState} (rid now : Nat) (lk pb b : Bool)
      (h : cancel_reservation s rid now lk pb = (s1, .ok b)) : Step s s1
  | expire {s : EngineState} (rid now : Nat) : Step s (expireTransition s rid now)
  | updateStock {s s1 : EngineState} (d : Int) (now : Nat) (lk pb b : Bool)
      (h : update_stock s d now lk pb = (s1, .ok b)) : Step s s1

/-- Claim C3: from a state satisfying the ledger invariant (counter
equation total = available + reserved, non-negative counters, reserved
equal to the sum of the active reservation quantities), every committed
transition of any engine operation (Reserve, Confirm, Consume, Cancel,
Expire, UpdateStock) preserves the equation and keeps all three
counters non-negative. -/
theorem step_preserves_invariant {s s1 : EngineState}
    (hinv : StateInv s) (hstep : Step s s1) : StateInv s1 := by
  obtain ⟨hsum, ha, hr, ht, hres, hq, hnd⟩ := hinv
  cases hstep with
  | reserve q ttl now newId lk pb resp hq0 h =>
    obtain ⟨hle, hfresh, hs1⟩ := reserve_stock_ok h
    subst hs1
    unfold StateInv
    dsimp only
    rw [activeReserved_cons]
    refine ⟨by omega, by omega, by omega, by omega, ?_, ?_, ?_⟩
    · have hw : weight ⟨q, .pending, now + ttl, none, none⟩ = q := by
        simp [weight, activeStatus]
      rw [hw]
      omega
    · intro p hp
      rcases List.mem_cons.mp hp with hp | hp
      · rw [hp]; exact hq0
      · exact hq p hp
    · refine List.nodup_cons.mpr ⟨?_, hnd⟩
      exact findRes_eq_none_iff.mp hfresh
  | confirm rid now pb b h =>
    obtain ⟨r, hfind, hstat, _, hs1⟩ := confirm_reservation_ok h
    subst hs1
    unfold StateInv
    dsimp only
    have hw : activeReserved (setRes s.reservations rid
        (fun x => { x with status := .confirmed, confirmed_at := some now })) =
        activeReserved s.reservations - weight r +
          weight { r with status := .confirmed, confirmed_at := some now } :=
      activeReserved_setRes hnd hfind
    have hwr : weight r = r.quantity := by simp [weight, activeStatus, hstat]
    have hwr2 : weight ({ r with status := .confirmed, confirmed_at := some now } : ReservationRow) = r.quantity := by
      simp [weight, activeStatus]
    rw [hw, hwr, hwr2]
    refine ⟨hsum, ha, hr, ht, by omega, ?_, ?_⟩
    · exact setRes_quantity_pos (fun x => rfl) hq
    · rw [resKeys_setRes]
      exact hnd
  | consume rid now pb b h =>
    obtain ⟨r, hfind, hstat, hs1⟩ := consume_reservation_ok h
    subst hs1
    unfold StateInv
    dsimp only
    have hw : activeReserved (setRes s.reservations rid
        (fun x => { x with status := .consumed })) =
        activeReserved s.reservations - weight r +
          weight { r with status := .consumed } :=
      activeReserved_setRes hnd hfind
    have hwr : weight r = r.quantity := by simp [weight, activeStatus, hstat]
    have hwr2 : weight ({ r with status := .consumed } : ReservationRow) = 0 := by
      simp [weight, activeStatus]
    have hqpos : ∀ p ∈ setRes s.reservations rid (fun x => { x with status := .consumed }), 0 < p.2.quantity :=
      setRes_quantity_pos (fun x => rfl) hq
    have hnn : 0 ≤ activeReserved (setRes s.reservations rid (fun x => { x with status := .consumed })) :=
      activeReserved_nonneg hqpos
    rw [hw, hwr, hwr2] at hnn ⊢
    refine ⟨by omega, by omega, by omega, by omega, by omega, hqpos, ?_⟩
    rw [resKeys_setRes]
    exact hnd
  | cancel rid now lk pb b h =>
    obtain ⟨r, hfind, hstat, hs1⟩ := cancel_reservation_ok h
    subst hs1
    unfold StateInv cancelUpdate
    dsimp only
    have hw : activeReserved (setRes s.reservations rid
        (fun x => { x with status := .cancelled, cancelled_at := some now })) =
        activeReserved s.reservations - weight r +
          weight { r with status := .cancelled, cancelled_at := some now } :=
      activeReserved_setRes hnd hfind
    have hwr : weight r = r.quantity := by
      rcases hstat with hstat | hstat <;> simp [weight, activeStatus, hstat]
    have hwr2 : weight ({ r with status := .cancelled, cancelled_at := some now } : ReservationRow) = 0 := by
      simp [weight, activeStatus]
    have hqpos : ∀ p ∈ setRes s.reservations rid (fun x => { x with status := .cancelled, cancelled_at := some now }), 0 < p.2.quantity :=
      setRes_quantity_pos (fun x => rfl) hq
    have hnn : 0 ≤ activeReserved (setRes s.reservations rid (fun x => { x with status := .cancelled, cancelled_at := some now })) :=
      activeReserved_nonneg hqpos
    rw [hw, hwr, hwr2] at hnn ⊢
    have hrq : 0 < r.quantity := hq _ (findRes_mem hfind)
    refine ⟨by omega, by omega, by omega, by omega, by omega, hqpos, ?_⟩
    rw [resKeys_setRes]
    exact hnd
  | expire rid now =>
    unfold expireTransition
    cases hfind : findRes s.reservations rid with
    | none => exact ⟨hsum, ha, hr, ht, hres, hq, hnd⟩
    | some r =>
      dsimp only
      by_cases hstat : r.status ≠ ReservationStatus.pending
      · rw [if_pos hstat]
        exact ⟨hsum, ha, hr, ht, hres, hq, hnd⟩
      · rw [if_neg hstat]
        push_neg at hstat
        unfold StateInv expireUpdate
        dsimp only
        have hw : activeReserved (setRes s.reservations rid
            (fun x => { x with status := .expired })) =
            activeReserved s.reservations - weight r +
              weight { r with status := .expired } :=
          activeReserved_setRes hnd hfind
        have hwr : weight r = r.quantity := by simp [weight, activeStatus, hstat]
        have hwr2 : weight ({ r with status := .expired } : ReservationRow) = 0 := by
          simp [weight, activeStatus]
        have hqpos : ∀ p ∈ setRes s.reservations rid (fun x => { x with status := .expired }), 0 < p.2.quantity :=
          setRes_quantity_pos (fun x => rfl) hq
        have hnn : 0 ≤ activeReserved (setRes s.reservations rid (fun x => { x with status := .expired })) :=
          activeReserved_nonneg hqpos
        rw [hw, hwr, hwr2] at hnn ⊢
        have hrq : 0 < r.quantity := hq _ (findRes_mem hfind)
        refine ⟨by omega, by omega, by omega, by omega, by omega, hqpos, ?_⟩
        rw [resKeys_setRes]
        exact hnd
  | updateStock d now lk pb b h =>
    obtain ⟨hnn, hs1⟩ := update_stock_ok h
    subst hs1
    unfold StateInv
    dsimp only
    exact ⟨by omega, by omega, by omega, by omega, by omega, hq, hnd⟩

/-- Witness for claim C3: a concrete Reserve step from the scenario-1
state (available 5, reserved 0, total 5, version 1) with quantity 3. -/
theorem step_preserves_invariant_witness :
    StateInv ⟨⟨2, 3, 5, 2, 0⟩, [(1, ⟨3, .pending, 15, none, none⟩)]⟩ :=
  @step_preserves_invariant ⟨⟨5, 0, 5, 1, 0⟩, []⟩
    ⟨⟨2, 3, 5, 2, 0⟩, [(1, ⟨3, .pending, 15, none, none⟩)]⟩ (by decide)
    (@Step.reserve ⟨⟨5, 0, 5, 1, 0⟩, []⟩
      ⟨⟨2, 3, 5, 2, 0⟩, [(1, ⟨3, .pending, 15, none, none⟩)]⟩
      3 15 0 1 true true ⟨1, .pending, 15⟩ (by decide) rfl)

/-- Claim C1, evaluated on the source (which contradicts it): in a
Reserve execution where the lock is acquired, the inventory exists, the
stock check passes and the conditional inventory update applies, a
failure of the event publisher while publishing reservation_created
does change the commit outcome.  EventService.publish_event re-raises
after logging, reserve_stock publishes before db.commit, and its except
block rolls the session back and re-raises, so the inventory update and
the PENDING reservation row are discarded and Reserve raises instead of
returning success.  The first conjunct evaluates the failing run, the
second the identical run with a working publisher. -/
theorem reserve_publish_failure_rolls_back :
    reserve_stock ⟨⟨5, 0, 5, 1, 0⟩, []⟩ 3 15 0 1 true false =
      (⟨⟨5, 0, 5, 1, 0⟩, []⟩, .error .publishFailed) ∧
    reserve_stock ⟨⟨5, 0, 5, 1, 0⟩, []⟩ 3 15 0 1 true true =
      (⟨⟨2, 3, 5, 2, 0⟩, [(1, ⟨3, .pending, 15, none, none⟩)]⟩,
       .ok ⟨1, .pending, 15⟩) :=
  ⟨rfl, rfl⟩

/-- Claim C2 counterexample: the Expire transition mutates the
inventory row (it credits available_quantity, debits reserved_quantity
and sets last_updated) yet leaves version at 7 instead of raising it to
8, so not every inventory mutation increases version by exactly 1. -/
theorem expire_transition_version_unchanged :
    expireTransition ⟨⟨3, 2, 5, 7, 0⟩, [(1, ⟨2, .pending, 5, none, none⟩)]⟩ 1 9 =
      ⟨⟨5, 0, 5, 7, 9⟩, [(1, ⟨2, .expired, 5, none, none⟩)]⟩ ∧
    ¬ (expireTransition ⟨⟨3, 2, 5, 7, 0⟩, [(1, ⟨2, .pending, 5, none, none⟩)]⟩
        1 9).inv.version = 7 + 1 :=
  ⟨rfl, by decide⟩

/-- Claim C2 amended: every committed inventory mutation by Reserve,
Consume, Cancel or UpdateStock increases version by exactly 1 and sets
last_updated to the write instant, while the inventory write of the
Expire transition sets last_updated but leaves version unchanged. -/
theorem mutation_version_increments (s : EngineState) :
    (∀ s1 q resp, ∀ ttl now newId : Nat, ∀ lk pb : Bool,
      reserve_stock s q ttl now newId lk pb = (s1, .ok resp) →
        s1.inv.version = s.inv.version + 1 ∧ s1.inv.last_updated = now) ∧
    (∀ s1 b, ∀ rid now : Nat, ∀ pb : Bool,
      consume_reservation s rid now pb = (s1, .ok b) →
        s1.inv.version = s.inv.version + 1 ∧ s1.inv.last_updated = now) ∧
    (∀ s1 b, ∀ rid now : Nat, ∀ lk pb : Bool,
      cancel_reservation s rid now lk pb = (s1, .ok b) →
        s1.inv.version = s.inv.version + 1 ∧ s1.inv.last_updated = now) ∧
    (∀ s1 b, ∀ d : Int, ∀ now : Nat, ∀ lk pb : Bool,
      update_stock s d now lk pb = (s1, .ok b) →
        s1.inv.version = s.inv.version + 1 ∧ s1.inv.last_updated = now) ∧
    (∀ r, ∀ rid now : Nat,
      findRes s.reservations rid = some r → r.status = .pending →
        (expireTransition s rid now).inv.version = s.inv.version ∧
        (expireTransition s rid now).inv.last_updated = now) := by
  refine ⟨?_, ?_, ?_, ?_, ?_⟩
  · intro s1 q resp ttl now newId lk pb h
    obtain ⟨-, -, hs1⟩ := reserve_stock_ok h
    subst hs1
    exact ⟨rfl, rfl⟩
  · intro s1 b rid now pb h
    obtain ⟨r, -, -, hs1⟩ := consume_reservation_ok h
    subst hs1
    exact ⟨rfl, rfl⟩
  · intro s1 b rid now lk pb h
    obtain ⟨r, -, -, hs1⟩ := cancel_reservation_ok h
    subst hs1
    exact ⟨rfl, rfl⟩
  · intro s1 b d now lk pb h
    obtain ⟨-, hs1⟩ := update_stock_ok h
    subst hs1
    exact ⟨rfl, rfl⟩
  · intro r rid now hfind hstat
    unfold expireTransition
    rw [hfind]
    dsimp only
    rw [if_neg (by simp [hstat])]
    exact ⟨rfl, rfl⟩

/-- Witness for the amended claim C2: the Cancel leg applied to a
concrete committed cancellation, and the Expire leg applied to a
concrete pending reservation. -/
theorem mutation_version_increments_witness :
    ((⟨⟨5, 0, 5, 3, 6⟩, [(1, ⟨2, .cancelled, 19, none, some 6⟩)]⟩ :
        EngineState).inv.version =
      (⟨⟨3, 2, 5, 2, 0⟩, [(1, ⟨2, .pending, 19, none, none⟩)]⟩ :
        EngineState).inv.version + 1) ∧
    (expireTransition ⟨⟨3, 2, 5, 2, 0⟩, [(1, ⟨2, .pending, 19, none, none⟩)]⟩
        1 9).inv.version =
      (⟨⟨3, 2, 5, 2, 0⟩, [(1, ⟨2, .pending, 19, none, none⟩)]⟩ :
        EngineState).inv.version := by
  have h := mutation_version_increments
    ⟨⟨3, 2, 5, 2, 0⟩, [(1, ⟨2, .pending, 19, none, none⟩)]⟩
  refine ⟨(h.2.2.1 ⟨⟨5, 0, 5, 3, 6⟩, [(1, ⟨2, .cancelled, 19, none, some 6⟩)]⟩
      true 1 6 true true rfl).1, (h.2.2.2.2 ⟨2, .pending, 19, none, none⟩ 1 9 rfl rfl).1⟩

/-- Claim C4 counterexample: the inventory write of Cancel is not a
conditional update keyed on the current version and is not retried.
In the effect trace transcribed from cancel_reservation there is no
version-guarded inventory update and exactly one unconditional
inventory write, while the traces of Reserve and UpdateStock, whose
statements do carry the version predicate, contain the version-guarded
write. -/
theorem cancel_write_not_version_keyed :
    EngineAction.condUpdateInventory ∉ cancelActions ∧
    cancelActions.count EngineAction.plainUpdateInventory = 1 ∧
    EngineAction.condUpdateInventory ∈ reserveActions ∧
    EngineAction.condUpdateInventory ∈ updateStockActions := by
  decide

/-- Claim C4 amended: Cancel applies its inventory update (available +
quantity, reserved - quantity, total unchanged) unconditionally - the
UPDATE matches product and store only, is issued exactly once with no
version predicate and no retry - and the cancel path never surfaces
OPTIMISTIC_LOCK_CONFLICT. -/
theorem cancel_applies_unconditionally (s : EngineState) (rid now : Nat)
    (lk pb : Bool) :
    (cancel_reservation s rid now lk pb).2 ≠ .error .optimisticLockConflict ∧
    (∀ s1 b, cancel_reservation s rid now lk pb = (s1, .ok b) →
      ∃ r, findRes s.reservations rid = some r ∧
        s1.inv = cancelUpdate s.inv r.quantity now ∧
        s1.inv.available_quantity = s.inv.available_quantity + r.quantity ∧
        s1.inv.reserved_quantity = s.inv.reserved_quantity - r.quantity ∧
        s1.inv.total_quantity = s.inv.total_quantity) := by
  constructor
  · unfold cancel_reservation
    repeat' split
    all_goals simp
  · intro s1 b h
    obtain ⟨r, hfind, -, hs1⟩ := cancel_reservation_ok h
    subst hs1
    exact ⟨r, hfind, rfl, rfl, rfl, rfl⟩

/-- Witness for the amended claim C4: a concrete cancellation of a
pending reservation of quantity 2. -/
theorem cancel_applies_unconditionally_witness :
    ∃ r, findRes [(1, (⟨2, .pending, 19, none, none⟩ : ReservationRow))] 1 = some r ∧
      (⟨⟨5, 0, 5, 3, 6⟩, [(1, ⟨2, .cancelled, 19, none, some 6⟩)]⟩ :
          EngineState).inv =
        cancelUpdate (⟨3, 2, 5, 2, 0⟩ : InventoryRow) r.quantity 6 ∧
      (⟨⟨5, 0, 5, 3, 6⟩, [(1, ⟨2, .cancelled, 19, none, some 6⟩)]⟩ :
          EngineState).inv.available_quantity = (3 : Int) + r.quantity ∧
      (⟨⟨5, 0, 5, 3, 6⟩, [(1, ⟨2, .cancelled, 19, none, some 6⟩)]⟩ :
          EngineState).inv.reserved_quantity = (2 : Int) - r.quantity ∧
      (⟨⟨5, 0, 5, 3, 6⟩, [(1, ⟨2, .cancelled, 19, none, some 6⟩)]⟩ :
          EngineState).inv.total_quantity = (5 : Int) :=
  (cancel_applies_unconditionally
    ⟨⟨3, 2, 5, 2, 0⟩, [(1, ⟨2, .pending, 19, none, none⟩)]⟩ 1 6 true true).2
    ⟨⟨5, 0, 5, 3, 6⟩, [(1, ⟨2, .cancelled, 19, none, some 6⟩)]⟩ true rfl

/-- Claim C5 counterexample: consume_reservation never calls the lock
manager - its transcribed effect trace contains no lock acquisition -
while the traces of Reserve, Cancel and UpdateStock, whose bodies do
call lock_manager.acquire_lock, contain it. -/
theorem consume_never_acquires_lock :
    EngineAction.acquireLock ∉ consumeActions ∧
    EngineAction.acquireLock ∈ reserveActions ∧
    EngineAction.acquireLock ∈ cancelActions ∧
    EngineAction.acquireLock ∈ updateStockActions := by
  decide

/-- Claim C5 amended: Consume of a CONFIRMED reservation performs its
version-guarded inventory update (reserved - quantity, total -
quantity, available unchanged, version + 1) without acquiring the
distributed (product, store) lock; serialization against other
stock-mutating operations on the key rests on the version guard
alone. -/
theorem consume_update_effect {s s1 : EngineState} {rid now : Nat} {pb b : Bool}
    (h : consume_reservation s rid now pb = (s1, .ok b)) :
    EngineAction.acquireLock ∉ consumeActions ∧
    ∃ r, findRes s.reservations rid = some r ∧ r.status = .confirmed ∧
      s1.inv.available_quantity = s.inv.available_quantity ∧
      s1.inv.reserved_quantity = s.inv.reserved_quantity - r.quantity ∧
      s1.inv.total_quantity = s.inv.total_quantity - r.quantity ∧
      s1.inv.version = s.inv.version + 1 := by
  obtain ⟨r, hfind, hstat, hs1⟩ := consume_reservation_ok h
  subst hs1
  exact ⟨by decide, r, hfind, hstat, rfl, rfl, rfl, rfl⟩

/-- Witness for the amended claim C5: a concrete consumption of a
confirmed reservation of quantity 2. -/
theorem consume_update_effect_witness :
    EngineAction.acquireLock ∉ consumeActions ∧
    ∃ r, findRes [(1, (⟨2, .confirmed, 19, some 4, none⟩ : ReservationRow))] 1 =
        some r ∧ r.status = .confirmed ∧
      (⟨⟨3, 0, 3, 3, 6⟩, [(1, ⟨2, .consumed, 19, some 4, none⟩)]⟩ :
          EngineState).inv.available_quantity =
        (⟨⟨3, 2, 5, 2, 0⟩, [(1, ⟨2, .confirmed, 19, some 4, none⟩)]⟩ :
          EngineState).inv.available_quantity ∧
      (⟨⟨3, 0, 3, 3, 6⟩, [(1, ⟨2, .consumed, 19, some 4, none⟩)]⟩ :
          EngineState).inv.reserved_quantity =
        (⟨⟨3, 2, 5, 2, 0⟩, [(1, ⟨2, .confirmed, 19, some 4, none⟩)]⟩ :
          EngineState).inv.reserved_quantity - r.quantity ∧
      (⟨⟨3, 0, 3, 3, 6⟩, [(1, ⟨2, .consumed, 19, some 4, none⟩)]⟩ :
          EngineState).inv.total_quantity =
        (⟨⟨3, 2, 5, 2, 0⟩, [(1, ⟨2, .confirmed, 19, some 4, none⟩)]⟩ :
          EngineState).inv.total_quantity - r.quantity ∧
      (⟨⟨3, 0, 3, 3, 6⟩, [(1, ⟨2, .consumed, 19, some 4, none⟩)]⟩ :
          EngineState).inv.version =
        (⟨⟨3, 2, 5, 2, 0⟩, [(1, ⟨2, .confirmed, 19, some 4, none⟩)]⟩ :
          EngineState).inv.version + 1 :=
  @consume_update_effect ⟨⟨3, 2, 5, 2, 0⟩, [(1, ⟨2, .confirmed, 19, some 4, none⟩)]⟩
    ⟨⟨3, 0, 3, 3, 6⟩, [(1, ⟨2, .consumed, 19, some 4, none⟩)]⟩ 1 6 true true rfl

/-- Claim C6, evaluated on the source (which contradicts the claim
through a slip): Confirm of a still-PENDING reservation whose
expires_at lies before now enters _expire_reservation, which issues the
expire statements and then calls self._publish_event - a method that
does not exist on InventoryService - so an AttributeError is raised
before any commit and before the raise of ReservationExpiredError.
The durable state is unchanged (the reservation stays PENDING and the
inventory is not re-credited), nothing is published, and HTTP surfaces
500 - both under handle_service_exception, which maps an
AttributeError to 500, and on the /inventory/confirm route itself,
whose except block raises NameError before that translator - not the
409 that RESERVATION_EXPIRED would carry. -/
theorem confirm_expired_attribute_error :
    confirm_reservation ⟨⟨3, 2, 5, 2, 0⟩, [(1, ⟨2, .pending, 10, none, none⟩)]⟩
        1 20 true =
      (⟨⟨3, 2, 5, 2, 0⟩, [(1, ⟨2, .pending, 10, none, none⟩)]⟩,
       .error (.attributeError "_publish_event")) ∧
    handle_service_exception (.attributeError "_publish_event") = 500 ∧
    confirm_route_status (.attributeError "_publish_event") = 500 ∧
    handle_service_exception .reservationExpired = 409 :=
  ⟨rfl, rfl, rfl, rfl⟩

/-- Claim C7: a successful Reserve of quantity q followed by a
successful Cancel of that reservation, with no interleaved writer,
returns available, reserved and total to their exact pre-Reserve
values, with version exactly 2 greater than before the Reserve and
last_updated advanced to the cancellation instant. -/
theorem reserve_then_cancel_restores {s s1 s2 : EngineState} {q : Int}
    {ttl t1 t2 newId : Nat} {lk1 pb1 lk2 pb2 b : Bool}
    {resp : ReservationResponse}
    (h1 : reserve_stock s q ttl t1 newId lk1 pb1 = (s1, .ok resp))
    (h2 : cancel_reservation s1 newId t2 lk2 pb2 = (s2, .ok b))
    (hadv : s.inv.last_updated < t2) :
    s2.inv.available_quantity = s.inv.available_quantity ∧
    s2.inv.reserved_quantity = s.inv.reserved_quantity ∧
    s2.inv.total_quantity = s.inv.total_quantity ∧
    s2.inv.version = s.inv.version + 2 ∧
    s2.inv.last_updated = t2 ∧
    s.inv.last_updated < s2.inv.last_updated := by
  obtain ⟨hle, hfresh, hs1⟩ := reserve_stock_ok h1
  obtain ⟨r, hfind, hstat, hs2⟩ := cancel_reservation_ok h2
  subst hs1
  rw [findRes_cons] at hfind
  simp only [if_pos rfl] at hfind
  have hr : (⟨q, .pending, t1 + ttl, none, none⟩ : ReservationRow) = r := by
    injection hfind
  subst hr
  subst hs2
  unfold cancelUpdate
  dsimp only
  refine ⟨by omega, by omega, by omega, by omega, rfl, hadv⟩

/-- Witness for claim C7: the scenario-3 round trip - Reserve 2 from
(5, 0, 5, version 1), then Cancel - computed concretely. -/
theorem reserve_then_cancel_restores_witness :
    (⟨⟨5, 0, 5, 3, 6⟩, [(1, ⟨2, .cancelled, 19, none, some 6⟩)]⟩ :
        EngineState).inv.available_quantity =
      (⟨⟨5, 0, 5, 1, 3⟩, []⟩ : EngineState).inv.available_quantity ∧
    (⟨⟨5, 0, 5, 3, 6⟩, [(1, ⟨2, .cancelled, 19, none, some 6⟩)]⟩ :
        EngineState).inv.reserved_quantity =
      (⟨⟨5, 0, 5, 1, 3⟩, []⟩ : EngineState).inv.reserved_quantity ∧
    (⟨⟨5, 0, 5, 3, 6⟩, [(1, ⟨2, .cancelled, 19, none, some 6⟩)]⟩ :
        EngineState).inv.total_quantity =
      (⟨⟨5, 0, 5, 1, 3⟩, []⟩ : EngineState).inv.total_quantity ∧
    (⟨⟨5, 0, 5, 3, 6⟩, [(1, ⟨2, .cancelled, 19, none, some 6⟩)]⟩ :
        EngineState).inv.version =
      (⟨⟨5, 0, 5, 1, 3⟩, []⟩ : EngineState).inv.version + 2 ∧
    (⟨⟨5, 0, 5, 3, 6⟩, [(1, ⟨2, .cancelled, 19, none, some 6⟩)]⟩ :
        EngineState).inv.last_updated = 6 ∧
    (⟨⟨5, 0, 5, 1, 3⟩, []⟩ : EngineState).inv.last_updated <
      (⟨⟨5, 0, 5, 3, 6⟩, [(1, ⟨2, .cancelled, 19, none, some 6⟩)]⟩ :
        EngineState).inv.last_updated :=
  @reserve_then_cancel_restores ⟨⟨5, 0, 5, 1, 3⟩, []⟩
    ⟨⟨3, 2, 5, 2, 4⟩, [(1, ⟨2, .pending, 19, none, none⟩)]⟩
    ⟨⟨5, 0, 5, 3, 6⟩, [(1, ⟨2, .cancelled, 19, none, some 6⟩)]⟩
    2 15 4 6 1 true true true true true ⟨1, .pending, 19⟩
    rfl rfl (by decide)

/-- Claim C8 counterexample: Confirm of a reservation whose status is
not PENDING does fail with the INVALID_RESERVATION_STATUS error, but
it is not surfaced over HTTP with status 409.  The exception object
carries status_code 400 (InvalidReservationStatusError subclasses
BusinessError, src/src/exceptions.py lines 146-151), which is what
handle_service_exception would translate, and on the wire the
/inventory/confirm route surfaces 500, because its except block raises
NameError on the undefined name reservation_id before that translator
runs.  Neither path yields 409. -/
theorem confirm_wrong_status_not_409 :
    confirm_reservation
        ⟨⟨3, 2, 5, 2, 0⟩, [(1, ⟨2, .confirmed, 50, some 3, none⟩)]⟩ 1 5 true =
      (⟨⟨3, 2, 5, 2, 0⟩, [(1, ⟨2, .confirmed, 50, some 3, none⟩)]⟩,
       .error .invalidReservationStatus) ∧
    confirm_route_status .invalidReservationStatus = 500 ∧
    ¬ confirm_route_status .invalidReservationStatus = 409 ∧
    handle_service_exception .invalidReservationStatus = 400 ∧
    ¬ handle_service_exception .invalidReservationStatus = 409 :=
  ⟨rfl, rfl, by decide, rfl, by decide⟩

/-- Claim C8 amended: Confirm of a non-PENDING reservation fails with
the INVALID_RESERVATION_STATUS error; the exception carries HTTP
status 400 (InvalidReservationStatusError subclasses BusinessError),
which is what handle_service_exception would surface, but the
/inventory/confirm except block references the undefined name
reservation_id and raises NameError before that translator runs, so on
the wire the request surfaces as HTTP 500.  The wrong-status
rejections of Consume (not CONFIRMED) and Cancel (terminal status)
raise untyped Exceptions; their routes' except blocks do reach
handle_service_exception, which surfaces them as HTTP 500. -/
theorem wrong_status_error_mapping {s : EngineState} {rid : Nat}
    {r : ReservationRow} (hfind : findRes s.reservations rid = some r) :
    (r.status ≠ .pending → ∀ now : Nat, ∀ pb : Bool,
      confirm_reservation s rid now pb = (s, .error .invalidReservationStatus) ∧
      handle_service_exception .invalidReservationStatus = RESP_BAD_REQUEST ∧
      confirm_route_status .invalidReservationStatus =
        RESP_INTERNAL_SERVER_ERROR) ∧
    (r.status ≠ .confirmed → ∀ now : Nat, ∀ pb : Bool,
      consume_reservation s rid now pb =
        (s, .error (.genericError "Reservation must be confirmed before consumption")) ∧
      handle_service_exception
          (.genericError "Reservation must be confirmed before consumption") =
        RESP_INTERNAL_SERVER_ERROR) ∧
    (¬ (r.status = .pending ∨ r.status = .confirmed) →
      ∀ now : Nat, ∀ lk pb : Bool,
      cancel_reservation s rid now lk pb =
        (s, .error (.genericError "Reservation cannot be cancelled")) ∧
      handle_service_exception (.genericError "Reservation cannot be cancelled") =
        RESP_INTERNAL_SERVER_ERROR) := by
  refine ⟨?_, ?_, ?_⟩
  · intro hst now pb
    refine ⟨?_, rfl, rfl⟩
    unfold confirm_reservation
    rw [hfind]
    dsimp only
    rw [if_pos (by simp [hst])]
  · intro hst now pb
    refine ⟨?_, rfl⟩
    unfold consume_reservation
    rw [hfind]
    dsimp only
    rw [if_pos (by simp [hst])]
  · intro hst now lk pb
    refine ⟨?_, rfl⟩
    unfold cancel_reservation
    rw [hfind]
    dsimp only
    rw [if_pos hst]

/-- Witness for the amended claim C8: a concrete Confirm of an already
CONFIRMED reservation, a concrete Consume of a PENDING one, and a
concrete Cancel of an EXPIRED one. -/
theorem wrong_status_error_mapping_witness :
    (confirm_reservation
        ⟨⟨3, 2, 5, 2, 0⟩, [(1, ⟨2, .confirmed, 50, some 3, none⟩)]⟩ 1 5 true =
      (⟨⟨3, 2, 5, 2, 0⟩, [(1, ⟨2, .confirmed, 50, some 3, none⟩)]⟩,
       .error .invalidReservationStatus) ∧
     handle_service_exception .invalidReservationStatus = RESP_BAD_REQUEST ∧
     confirm_route_status .invalidReservationStatus =
       RESP_INTERNAL_SERVER_ERROR) ∧
    (consume_reservation
        ⟨⟨3, 2, 5, 2, 0⟩, [(2, ⟨2, .pending, 50, none, none⟩)]⟩ 2 5 true =
      (⟨⟨3, 2, 5, 2, 0⟩, [(2, ⟨2, .pending, 50, none, none⟩)]⟩,
       .error (.genericError "Reservation must be confirmed before consumption")) ∧
     handle_service_exception
         (.genericError "Reservation must be confirmed before consumption") =
       RESP_INTERNAL_SERVER_ERROR) ∧
    (cancel_reservation
        ⟨⟨5, 0, 5, 3, 0⟩, [(3, ⟨2, .expired, 10, none, none⟩)]⟩ 3 5 true true =
      (⟨⟨5, 0, 5, 3, 0⟩, [(3, ⟨2, .expired, 10, none, none⟩)]⟩,
       .error (.genericError "Reservation cannot be cancelled")) ∧
     handle_service_exception (.genericError "Reservation cannot be cancelled") =
       RESP_INTERNAL_SERVER_ERROR) :=
  ⟨(@wrong_status_error_mapping
      ⟨⟨3, 2, 5, 2, 0⟩, [(1, ⟨2, .confirmed, 50, some 3, none⟩)]⟩ 1
      ⟨2, .confirmed, 50, some 3, none⟩ rfl).1 (by decide) 5 true,
   (@wrong_status_error_mapping
      ⟨⟨3, 2, 5, 2, 0⟩, [(2, ⟨2, .pending, 50, none, none⟩)]⟩ 2
      ⟨2, .pending, 50, none, none⟩ rfl).2.1 (by decide) 5 true,
   (@wrong_status_error_mapping
      ⟨⟨5, 0, 5, 3, 0⟩, [(3, ⟨2, .expired, 10, none, none⟩)]⟩ 3
      ⟨2, .expired, 10, none, none⟩ rfl).2.2 (by decide) 5 true true⟩

/-- A reservation status from which the state machine allows no further
transition: CONSUMED, CANCELLED or EXPIRED. -/
def terminalStatus : ReservationStatus → Bool
  | .consumed => true
  | .cancelled => true
  | .expired => true
  | .pending => false
  | .confirmed => false

/-- Claim C9: no operation transitions a reservation out of a terminal
state.  For a reservation in CONSUMED, CANCELLED or EXPIRED, Confirm,
Consume and Cancel fail leaving the durable state unchanged, and the
Expire path returns without doing anything: _expire_reservation as
written returns before issuing any statement, and the expire transition
it describes is the identity, so a second Expire of an EXPIRED
reservation is a no-op and re-credits no stock. -/
theorem terminal_states_frozen {s : EngineState} {rid : Nat}
    {r : ReservationRow} (hfind : findRes s.reservations rid = some r)
    (hterm : terminalStatus r.status = true) :
    (∀ now : Nat, ∀ pb : Bool,
      confirm_reservation s rid now pb = (s, .error .invalidReservationStatus)) ∧
    (∀ now : Nat, ∀ pb : Bool,
      consume_reservation s rid now pb =
        (s, .error (.genericError "Reservation must be confirmed before consumption"))) ∧
    (∀ now : Nat, ∀ lk pb : Bool,
      cancel_reservation s rid now lk pb =
        (s, .error (.genericError "Reservation cannot be cancelled"))) ∧
    (∀ now : Nat, expire_reservation s rid now = (s, .ok ())) ∧
    (∀ now : Nat, expireTransition s rid now = s) := by
  have hnp : r.status ≠ .pending := by
    cases h : r.status <;> simp_all [terminalStatus]
  have hnc : r.status ≠ .confirmed := by
    cases h : r.status <;> simp_all [terminalStatus]
  refine ⟨?_, ?_, ?_, ?_, ?_⟩
  · intro now pb
    unfold confirm_reservation
    rw [hfind]
    dsimp only
    rw [if_pos (by simp [hnp])]
  · intro now pb
    unfold consume_reservation
    rw [hfind]
    dsimp only
    rw [if_pos (by simp [hnc])]
  · intro now lk pb
    unfold cancel_reservation
    rw [hfind]
    dsimp only
    rw [if_pos (by simp [hnp, hnc])]
  · intro now
    unfold expire_reservation
    rw [hfind]
    dsimp only
    rw [if_pos (by simp [hnp])]
  · intro now
    unfold expireTransition
    rw [hfind]
    dsimp only
    rw [if_pos (by simp [hnp])]

/-- Witness for claim C9: a concrete already-EXPIRED reservation; the
Expire leg shows the second Expire is the identity on the state. -/
theorem terminal_states_frozen_witness :
    (∀ now : Nat, ∀ pb : Bool,
      confirm_reservation
          ⟨⟨5, 0, 5, 3, 0⟩, [(1, ⟨2, .expired, 10, none, none⟩)]⟩ 1 now pb =
        (⟨⟨5, 0, 5, 3, 0⟩, [(1, ⟨2, .expired, 10, none, none⟩)]⟩,
         .error .invalidReservationStatus)) ∧
    (∀ now : Nat,
      expireTransition
          ⟨⟨5, 0, 5, 3, 0⟩, [(1, ⟨2, .expired, 10, none, none⟩)]⟩ 1 now =
        ⟨⟨5, 0, 5, 3, 0⟩, [(1, ⟨2, .expired, 10, none, none⟩)]⟩) := by
  have h := @terminal_states_frozen
    ⟨⟨5, 0, 5, 3, 0⟩, [(1, ⟨2, .expired, 10, none, none⟩)]⟩ 1
    ⟨2, .expired, 10, none, none⟩ rfl (by decide)
  exact ⟨h.1, h.2.2.2.2⟩

/-- Modelled from the spec: the UpdateStock conditional write as
section 4.4 words it (delta-available = delta, delta-total = delta,
delta-reserved = 0, guarded by the version read in step 2), with
available updated relatively from the row itself; declared only to be
compared against the absolute write the source performs. -/
def updateStockWriteRel (row : InventoryRow) (expectedVersion delta : Int)
    (t : Nat) : Option InventoryRow :=
  if row.version = expectedVersion then
    some { row with
      available_quantity := row.available_quantity + delta
      total_quantity := row.total_quantity + delta
      version := row.version + 1
      last_updated := t }
  else none

/-- Modelled from the spec: the UpdateStock operation using the
relative conditional write updateStockWriteRel in place of the absolute
write of the source; declared only to be compared against
update_stock. -/
def update_stock_relative (s : EngineState) (quantity_change : Int) (now : Nat)
    (lockOk publishOk : Bool) : EngineState × Except EngineError Bool :=
  if ¬ lockOk then (s, .error (.genericError "Could not acquire inventory lock"))
  else if s.inv.available_quantity + quantity_change < 0 then
    (s, .error (.genericError "Stock cannot go below zero"))
  else
    match updateStockWriteRel s.inv s.inv.version quantity_change now with
    | none => (s, .error .optimisticLockConflict)
    | some inv1 =>
      if ¬ publishOk then (s, .error .publishFailed)
      else ({ s with inv := inv1 }, .ok true)

/-- Claim C10: in update_stock the write stores the absolute value
new_available computed from the snapshot read before the statement,
while total_quantity is updated relatively by the same delta.  First
conjunct, statement level: whenever the row facing the write carries
the snapshot's version and its available_quantity still equals the
snapshot's (the engine serializes the read-then-write under the key
lock, and every committed inventory write in the source increments
version, so a passing guard implies an unchanged row), the absolute
write coincides with the relative write available + delta.  Second
conjunct, operation level: update_stock computes exactly what the
relative variant computes.  Third conjunct: a write that affects a row
adds the delta to available, leaves reserved unchanged, and preserves
total = available + reserved. -/
theorem update_stock_absolute_eq_relative :
    (∀ row snap : InventoryRow, ∀ d : Int, ∀ t : Nat,
      row.version = snap.version →
      row.available_quantity = snap.available_quantity →
      updateStockWrite row snap.version (snap.available_quantity + d) d t =
        updateStockWriteRel row snap.version d t) ∧
    (∀ s : EngineState, ∀ d : Int, ∀ now : Nat, ∀ lk pb : Bool,
      update_stock s d now lk pb = update_stock_relative s d now lk pb) ∧
    (∀ s s1 : EngineState, ∀ b : Bool, ∀ d : Int, ∀ now : Nat, ∀ lk pb : Bool,
      update_stock s d now lk pb = (s1, .ok b) →
      s1.inv.available_quantity = s.inv.available_quantity + d ∧
      s1.inv.reserved_quantity = s.inv.reserved_quantity ∧
      (s.inv.total_quantity = s.inv.available_quantity + s.inv.reserved_quantity →
        s1.inv.total_quantity = s1.inv.available_quantity + s1.inv.reserved_quantity)) := by
  refine ⟨?_, ?_, ?_⟩
  · intro row snap d t hv havail
    unfold updateStockWrite updateStockWriteRel
    rw [havail]
  · intro s d now lk pb
    rfl
  · intro s s1 b d now lk pb h
    obtain ⟨hnn, hs1⟩ := update_stock_ok h
    subst hs1
    exact ⟨rfl, rfl, by dsimp only; omega⟩

/-- Witness for claim C10: the statement-level equivalence at a
concrete row and snapshot, and the operation-level effect on the
scenario-6 stock-in (10, 2, 12, version 4) plus 5. -/
theorem update_stock_absolute_eq_relative_witness :
    updateStockWrite ⟨10, 2, 12, 4, 0⟩ (⟨10, 2, 12, 4, 0⟩ : InventoryRow).version
        ((⟨10, 2, 12, 4, 0⟩ : InventoryRow).available_quantity + 5) 5 7 =
      updateStockWriteRel ⟨10, 2, 12, 4, 0⟩
        (⟨10, 2, 12, 4, 0⟩ : InventoryRow).version 5 7 ∧
    ((⟨⟨15, 2, 17, 5, 7⟩, []⟩ : EngineState).inv.available_quantity =
        (⟨⟨10, 2, 12, 4, 0⟩, []⟩ : EngineState).inv.available_quantity + 5 ∧
      (⟨⟨15, 2, 17, 5, 7⟩, []⟩ : EngineState).inv.reserved_quantity =
        (⟨⟨10, 2, 12, 4, 0⟩, []⟩ : EngineState).inv.reserved_quantity ∧
      ((⟨⟨10, 2, 12, 4, 0⟩, []⟩ : EngineState).inv.total_quantity =
          (⟨⟨10, 2, 12, 4, 0⟩, []⟩ : EngineState).inv.available_quantity +
            (⟨⟨10, 2, 12, 4, 0⟩, []⟩ : EngineState).inv.reserved_quantity →
        (⟨⟨15, 2, 17, 5, 7⟩, []⟩ : EngineState).inv.total_quantity =
          (⟨⟨15, 2, 17, 5, 7⟩, []⟩ : EngineState).inv.available_quantity +
            (⟨⟨15, 2, 17, 5, 7⟩, []⟩ : EngineState).inv.reserved_quantity)) :=
  ⟨update_stock_absolute_eq_relative.1 ⟨10, 2, 12, 4, 0⟩ ⟨10, 2, 12, 4, 0⟩ 5 7
     rfl rfl,
   update_stock_absolute_eq_relative.2.2 ⟨⟨10, 2, 12, 4, 0⟩, []⟩
     ⟨⟨15, 2, 17, 5, 7⟩, []⟩ true 5 7 true true rfl⟩

end Proyecto1
